import Mathlib

/-!
Verification development for the conjure-sdk adapter framework.

The definitions below are a shallow embedding of the Python sources:
  - src/conjure/adapter/result.py          (AdapterResult, to_wire)
  - src/conjure/adapter/base_adapter.py    (BaseAdapter.execute)
  - src/conjure/adapter/base_server_client.py
        (ConnectionState, connect, run, handle_execute_command)
  - src/conjure/transport/socket_server.py (SocketServerMixin)

Python dictionaries are modelled as association lists keyed by strings;
Python values as the inductive JValue; a raised exception that the code
catches is modelled as an explicit outcome constructor, so that a Lean
function being total corresponds to the Python code not letting an
exception escape.
-/

namespace Conjure

/-- Model of a Python / JSON value as it flows through the adapter layer. -/
inductive JValue where
  | null : JValue
  | bool : Bool → JValue
  | int : Int → JValue
  | str : String → JValue
  | list : List JValue → JValue
  | obj : List (String × JValue) → JValue

/-- A Python dict with string keys, as used for params, data and messages. -/
abbrev PyDict := List (String × JValue)

/-- Lookup in an association list: models Python dict.get(k). -/
def alistGet {α : Type} (d : List (String × α)) (k : String) : Option α :=
  match d with
  | [] => none
  | (k1, v) :: rest => if k1 = k then some v else alistGet rest k

/-- Lookup with default: models Python dict.get(k, dflt). -/
def alistGetD {α : Type} (d : List (String × α)) (k : String) (dflt : α) : α :=
  (alistGet d k).getD dflt

/-- Key membership: models the Python test k in d. -/
def alistHas {α : Type} (d : List (String × α)) (k : String) : Bool :=
  (alistGet d k).isSome

/-- Remove a key: models Python del d[k] and d.pop(k, None). -/
def alistRemove {α : Type} (d : List (String × α)) (k : String) : List (String × α) :=
  match d with
  | [] => []
  | (k1, v) :: rest => if k1 = k then alistRemove rest k else (k1, v) :: alistRemove rest k

/-- Key assignment: models Python d[k] = v (the stored value shadows any prior one). -/
def alistInsert {α : Type} (d : List (String × α)) (k : String) (v : α) : List (String × α) :=
  (k, v) :: alistRemove d k

/-- Python truthiness of a value, as used by the test if self.error: in to_wire. -/
def pyTruthy : JValue → Bool
  | .null => false
  | .bool b => b
  | .int n => n != 0
  | .str s => s != ""
  | .list xs => !xs.isEmpty
  | .obj d => !d.isEmpty

/-- Truthiness of an optional value: Python None is falsy. -/
def optTruthy : Option JValue → Bool
  | none => false
  | some v => pyTruthy v

/-- Embedding of the AdapterResult dataclass (src/conjure/adapter/result.py).
The error field is Optional in the source; Python being dynamically typed, the
dispatcher can store any value there, hence Option JValue. -/
structure AdapterResult where
  success : Bool
  data : PyDict
  error : Option JValue

/-- AdapterResult.ok() with no keyword data. -/
def AdapterResult.ok : AdapterResult :=
  { success := true, data := [], error := none }

/-- AdapterResult.fail(error): success false, empty data, the given error value. -/
def AdapterResult.fail (e : JValue) : AdapterResult :=
  { success := false, data := [], error := some e }

/-- AdapterResult.to_wire: always emits success and data; emits the error key
only when self.error is truthy (the source guard is if self.error:). -/
def AdapterResult.to_wire (r : AdapterResult) : PyDict :=
  match r.error with
  | some v =>
      if pyTruthy v then
        [("success", JValue.bool r.success), ("data", JValue.obj r.data), ("error", v)]
      else
        [("success", JValue.bool r.success), ("data", JValue.obj r.data)]
  | none => [("success", JValue.bool r.success), ("data", JValue.obj r.data)]

/-- Modelled from the spec: the repository contains no from-wire reader for
AdapterResult (the hosted server consumes the wire form), so re-parsing is
taken from the spec round-trip sentence: read success, data, and error, with
error null exactly when the error key is absent. -/
def parseWireResult (w : PyDict) : AdapterResult :=
  { success := match alistGet w "success" with
      | some (JValue.bool b) => b
      | _ => false
    data := match alistGet w "data" with
      | some (JValue.obj d) => d
      | _ => []
    error := alistGet w "error" }

/-- The value a registered handler hands back to execute: an AdapterResult,
a plain dict, or any other Python value (string, number, list, None, ...). -/
inductive HandlerReturn where
  | result : AdapterResult → HandlerReturn
  | dict : PyDict → HandlerReturn
  | other : JValue → HandlerReturn

/-- The observable outcome of invoking a handler: it returns a value or it
raises an exception carrying a message (str(e) in the source). -/
inductive HandlerOutcome where
  | ret : HandlerReturn → HandlerOutcome
  | exn : String → HandlerOutcome

/-- A registered handler: the isAsync flag models inspect.iscoroutinefunction,
which selects between the await and the direct call in execute. -/
structure Handler where
  isAsync : Bool
  fn : PyDict → HandlerOutcome

/-- The handler registry self.handlers of BaseAdapter. -/
abbrev HandlerMap := List (String × Handler)

/-- The legacy failure marker test result.get("status") == "error": true only
when the status key holds exactly the string value error. -/
def isErrorStatus (d : PyDict) : Bool :=
  match alistGet d "status" with
  | some (JValue.str s) => s == "error"
  | _ => false

/-- Embedding of BaseAdapter.execute (src/conjure/adapter/base_adapter.py,
lines 91-133). Totality of this function models the source catching every
handler exception: no exception escapes to the caller of execute. -/
def execute (handlers : HandlerMap) (command_type : String) (params : PyDict) : AdapterResult :=
  match alistGet handlers command_type with
  | none => AdapterResult.fail (JValue.str ("Unknown command: " ++ command_type))
  | some handler =>
    let outcome := if handler.isAsync then handler.fn params else handler.fn params
    match outcome with
    | .exn msg => AdapterResult.fail (JValue.str msg)
    | .ret (.result r) => r
    | .ret (.dict d) =>
        if isErrorStatus d then
          AdapterResult.fail (alistGetD d "error" (JValue.str "Unknown error"))
        else
          { success := true, data := d, error := none }
    | .ret (.other _) => AdapterResult.ok

/-- The command type read off an execute_command message: the source uses
message.get("command_type", "") and the registry keys are strings. -/
def msgCommandType (message : PyDict) : String :=
  match alistGet message "command_type" with
  | some (JValue.str s) => s
  | _ => ""

/-- The params dict read off an execute_command message, default empty. -/
def msgParams (message : PyDict) : PyDict :=
  match alistGet message "params" with
  | some (JValue.obj d) => d
  | _ => []

/-- Embedding of BaseServerClient handle-execute-command
(src/conjure/adapter/base_server_client.py, lines 227-253). With no adapter
attached it builds the synthetic failure dict literally as in the source;
otherwise it prepends the type and request id to the wire form of the
dispatched result. The adapter argument is its handler registry. -/
def handle_execute_command (adapter : Option HandlerMap) (message : PyDict) : PyDict :=
  match adapter with
  | none =>
      [("type", JValue.str "command_result"),
       ("request_id", alistGetD message "request_id" JValue.null),
       ("success", JValue.bool false),
       ("error", JValue.str "No adapter configured")]
  | some handlers =>
      let r := execute handlers (msgCommandType message) (msgParams message)
      [("type", JValue.str "command_result"),
       ("request_id", alistGetD message "request_id" JValue.null)]
      ++ r.to_wire

/-- The ConnectionState enum of the persistent server client. -/
inductive ConnState where
  | disconnected : ConnState
  | connecting : ConnState
  | connected : ConnState
  | reconnecting : ConnState
deriving DecidableEq

/-- The mutable fields of BaseServerClient that connect and run touch: the
websocket handle (None or an abstract handle id), the connection state, the
reconnect-attempt counter and the running flag. -/
structure ClientState where
  ws : Option Nat
  state : ConnState
  reconnectAttempts : Nat
  running : Bool
deriving DecidableEq

/-- The property is_connected: state is CONNECTED and the handle is not None. -/
def isConnected (s : ClientState) : Bool :=
  (s.state == ConnState.connected) && s.ws.isSome

/-- Environment outcome of one attempt of the try block inside connect: the
websocket open call raises, or it yields handle h and the registration send
raises, or both steps succeed with handle h. -/
inductive ConnectOutcome where
  | connectFail : ConnectOutcome
  | registerFail : Nat → ConnectOutcome
  | ok : Nat → ConnectOutcome
deriving DecidableEq

/-- Embedding of BaseServerClient.connect (lines 86-124): no-op True when
already connected; otherwise move to CONNECTING, and on any failure inside
the try block set state DISCONNECTED and return False (totality models that
the failure is returned, not raised); on success store the handle, set state
CONNECTED, reset the reconnect-attempt counter to zero and return True. -/
def connect (s : ClientState) (out : ConnectOutcome) : ClientState × Bool :=
  if isConnected s then (s, true)
  else
    let s1 := { s with state := ConnState.connecting }
    match out with
    | .connectFail => ({ s1 with state := ConnState.disconnected }, false)
    | .registerFail h => ({ s1 with ws := some h, state := ConnState.disconnected }, false)
    | .ok h =>
        ({ s1 with ws := some h, state := ConnState.connected, reconnectAttempts := 0 }, true)

/-- One environment event consumed by an iteration of the run loop: the
outcome of a connect attempt when not connected, or the way the inbound
message iteration ended when connected (peer closed the connection, some
other exception was raised, or the iterator finished normally). -/
inductive LoopEvent where
  | connAttempt : ConnectOutcome → LoopEvent
  | msgClosed : LoopEvent
  | msgError : LoopEvent
  | msgBatchDone : LoopEvent
deriving DecidableEq

/-- One iteration of the while loop in BaseServerClient.run (lines 166-191),
driven by one environment event. The returned flag is false exactly when the
loop exits (running flag cleared, or the break after too many reconnect
attempts). When not connected the loop calls connect; on failure it
increments the reconnect-attempt counter and breaks once the counter exceeds
the configured maximum. When connected, ConnectionClosed sets state
RECONNECTING and clears the handle, while any other exception sets state
RECONNECTING and leaves the handle in place, exactly as in the two except
clauses of the source. Events that cannot occur in a phase leave the state
unchanged. -/
def runStep (maxAttempts : Nat) (s : ClientState) (ev : LoopEvent) : ClientState × Bool :=
  if s.running then
    if isConnected s then
      match ev with
      | .msgClosed => ({ s with state := ConnState.reconnecting, ws := none }, true)
      | .msgError => ({ s with state := ConnState.reconnecting }, true)
      | _ => (s, true)
    else
      match ev with
      | .connAttempt out =>
          let res := connect s out
          if res.2 then (res.1, true)
          else
            let s2 := { res.1 with reconnectAttempts := res.1.reconnectAttempts + 1 }
            if maxAttempts < s2.reconnectAttempts then (s2, false) else (s2, true)
      | _ => (s, true)
  else (s, false)

/-- Folding runStep over a list of environment events, stopping as soon as an
iteration reports that the loop exited; the flag is false exactly when the
loop terminated before exhausting the events. -/
def runTrace (maxAttempts : Nat) (s : ClientState) : List LoopEvent → ClientState × Bool
  | [] => (s, true)
  | ev :: rest =>
      let res := runStep maxAttempts s ev
      if res.2 then runTrace maxAttempts res.1 rest else (res.1, false)

/-- The client state right after run() sets the running flag on a freshly
constructed client: no handle, DISCONNECTED, zero reconnect attempts. -/
def startState : ClientState :=
  { ws := none, state := ConnState.disconnected, reconnectAttempts := 0, running := true }

/-- The shared state of SocketServerMixin that the queue-and-wait and
process-queue paths touch: the running flag, the pending-operation queue of
(command type, params, request id) triples, the result map and the event map
(the Bool records whether the threading.Event was set). -/
structure ServerState where
  running : Bool
  opQueue : List (String × PyDict × String)
  resultMap : List (String × PyDict)
  resultEvents : List (String × Bool)

/-- Outcome of invoking the executor callable from server_process_queue: a
returned result dict, or a raised exception carrying a message. -/
inductive ExecOutcome where
  | ret : PyDict → ExecOutcome
  | exn : String → ExecOutcome

/-- The executor callable handed to server_process_queue. -/
abbrev Executor := String → PyDict → ExecOutcome

/-- First half of SocketServerMixin server-queue-and-wait (lines 174-177):
register a fresh unset event under the request id and push the decoded
operation onto the shared queue; the connection thread then blocks on the
event. The JSON-decode branch and the id generation are outside this model:
the decoded command and its request id are taken as arguments. -/
def queueAndWaitEnqueue (s : ServerState) (cmdType : String) (params : PyDict)
    (reqId : String) : ServerState :=
  { s with resultEvents := alistInsert s.resultEvents reqId false,
           opQueue := s.opQueue ++ [(cmdType, params, reqId)] }

/-- Timeout exit of server-queue-and-wait (lines 184-185): the wait on the
event elapsed, so the connection thread removes its own event registration
(pop with default None, so never raising) and returns the timeout error. -/
def queueAndWaitTimeout (s : ServerState) (reqId : String) : ServerState × PyDict :=
  ({ s with resultEvents := alistRemove s.resultEvents reqId },
   [("status", JValue.str "error"), ("error", JValue.str "Operation timed out")])

/-- Signalled exit of server-queue-and-wait (lines 179-182): the event was
set, so pop the result (with the no-result error as default) and delete the
event registration. -/
def queueAndWaitSignaled (s : ServerState) (reqId : String) : ServerState × PyDict :=
  (⟨s.running, s.opQueue, alistRemove s.resultMap reqId, alistRemove s.resultEvents reqId⟩,
   alistGetD s.resultMap reqId [("status", JValue.str "error"), ("error", JValue.str "No result")])

/-- The body of the for loop of server_process_queue (lines 208-219): pop up
to n operations; for each, run the executor, converting a raised exception
into the status-error dict; store the result under the request id; and set
the event only if one is still registered (the in-test of line 217). -/
def processOps (exec : Executor) : Nat → ServerState → ServerState
  | 0, s => s
  | n + 1, s =>
      match s.opQueue with
      | [] => s
      | (t, p, rid) :: rest =>
          let res := match exec t p with
            | .ret d => d
            | .exn m => [("status", JValue.str "error"), ("error", JValue.str m)]
          let s1 : ServerState :=
            { s with opQueue := rest, resultMap := alistInsert s.resultMap rid res }
          let s2 := if alistHas s1.resultEvents rid then
              { s1 with resultEvents := alistInsert s1.resultEvents rid true }
            else s1
          processOps exec n s2

/-- Embedding of SocketServerMixin.server_process_queue (lines 187-222):
returns False immediately when the server is not running, otherwise drains
up to maxOps operations and returns True. Totality models that a late
completion never raises on the execution thread. -/
def server_process_queue (exec : Executor) (maxOps : Nat) (s : ServerState) :
    ServerState × Bool :=
  if s.running then (processOps exec maxOps s, true) else (s, false)

/-- A freshly initialized running server (server_init then server_start):
empty queue and empty correlation maps. -/
def initServer : ServerState :=
  { running := true, opQueue := [], resultMap := [], resultEvents := [] }

/-- A synchronous handler that raises an exception with message boom. -/
def exnHandlerSync : Handler :=
  { isAsync := false, fn := fun _ => HandlerOutcome.exn "boom" }

/-- An asynchronous handler that raises an exception with message boom. -/
def exnHandlerAsync : Handler :=
  { isAsync := true, fn := fun _ => HandlerOutcome.exn "boom" }

/-- A legacy error dict that carries the status marker but no error field. -/
def legacyMarkerOnlyDict : PyDict := [("status", JValue.str "error")]

/-- A handler returning a legacy error dict that has no error field. -/
def legacyMarkerOnlyHandler : Handler :=
  { isAsync := false, fn := fun _ => HandlerOutcome.ret (HandlerReturn.dict legacyMarkerOnlyDict) }

/-- A legacy error dict with both the status marker and an error field. -/
def legacyFullDict : PyDict :=
  [("status", JValue.str "error"), ("error", JValue.str "Operation failed")]

/-- A handler returning a legacy error dict with an error field. -/
def legacyFullHandler : Handler :=
  { isAsync := false, fn := fun _ => HandlerOutcome.ret (HandlerReturn.dict legacyFullDict) }

/-- A handler returning a bare string, neither an AdapterResult nor a dict. -/
def otherStrHandler : Handler :=
  { isAsync := false, fn := fun _ => HandlerOutcome.ret (HandlerReturn.other (JValue.str "hello")) }

/-- An asynchronous handler whose body returns None. -/
def otherNoneHandler : Handler :=
  { isAsync := true, fn := fun _ => HandlerOutcome.ret (HandlerReturn.other JValue.null) }

/-- A failed result whose error is the empty string. -/
def emptyErrResult : AdapterResult :=
  { success := false, data := [], error := some (JValue.str "") }

/-- A concrete executor that completes every operation with a small dict. -/
def execDone : Executor := fun _ _ => ExecOutcome.ret [("done", JValue.bool true)]

/-- A concrete connected client state used to exercise the run loop. -/
def connectedClient : ClientState :=
  { ws := some 7, state := ConnState.connected, reconnectAttempts := 3, running := true }

/-- Looking up the key just inserted yields the inserted value. -/
theorem alistGet_insert_self {α : Type} (d : List (String × α)) (k : String) (v : α) :
    alistGet (alistInsert d k v) k = some v := by
  simp [alistInsert, alistGet]

/-- Removing a key twice is the same as removing it once. -/
theorem alistRemove_idem {α : Type} (d : List (String × α)) (k : String) :
    alistRemove (alistRemove d k) k = alistRemove d k := by
  induction d with
  | nil => rfl
  | cons p rest ih =>
      by_cases hk : p.1 = k
      · simp [alistRemove, hk, ih]
      · simp [alistRemove, hk, ih]

/-- Removing a key after inserting it removes it from the original list. -/
theorem alistRemove_insert {α : Type} (d : List (String × α)) (k : String) (v : α) :
    alistRemove (alistInsert d k v) k = alistRemove d k := by
  simp [alistInsert, alistRemove, alistRemove_idem]

/-- Removing an absent key leaves the list unchanged. -/
theorem alistRemove_of_notHas {α : Type} (d : List (String × α)) (k : String)
    (h : alistHas d k = false) : alistRemove d k = d := by
  induction d with
  | nil => rfl
  | cons p rest ih =>
      by_cases hk : p.1 = k
      · exfalso
        simp [alistHas, alistGet, hk] at h
      · simp [alistHas, alistGet, hk] at h
        simp [alistRemove, hk, ih (by simp [alistHas, h])]

/-- Lookup skips over a first block that does not contain the key. -/
theorem alistGet_append_of_notHas {α : Type} (l1 l2 : List (String × α)) (k : String)
    (h : alistHas l1 k = false) : alistGet (l1 ++ l2) k = alistGet l2 k := by
  induction l1 with
  | nil => rfl
  | cons p rest ih =>
      by_cases hk : p.1 = k
      · exfalso
        simp [alistHas, alistGet, hk] at h
      · simp [alistHas, alistGet, hk] at h
        simp [alistGet, hk, ih (by simp [alistHas, h])]

/-- The wire form of any result carries its data dict under the data key. -/
theorem alistGet_to_wire_data (r : AdapterResult) :
    alistGet r.to_wire "data" = some (JValue.obj r.data) := by
  cases herr : r.error with
  | none => simp [AdapterResult.to_wire, herr, alistGet]
  | some v =>
      by_cases hv : pyTruthy v = true
      · simp [AdapterResult.to_wire, herr, hv, alistGet]
      · simp [AdapterResult.to_wire, herr, hv, alistGet]

/-- Processing an empty queue changes nothing. -/
theorem processOps_of_empty (exec : Executor) (n : Nat) (s : ServerState)
    (h : s.opQueue = []) : processOps exec n s = s := by
  cases n with
  | zero => rfl
  | succ n => simp [processOps, h]

/-- Claim C1: for every registered handler, synchronous or asynchronous, and
every parameter dict, if the handler raises an exception then execute returns
a failure result whose error is the exception message; execute being a total
Lean function models that no exception propagates to the caller. -/
theorem dispatch_exception_to_failure (handlers : HandlerMap) (ct : String)
    (params : PyDict) (h : Handler) (msg : String)
    (hget : alistGet handlers ct = some h)
    (hexn : h.fn params = HandlerOutcome.exn msg) :
    execute handlers ct params = AdapterResult.fail (JValue.str msg) := by
  cases hA : h.isAsync <;> simp [execute, hget, hA, hexn]

/-- Witness for C1, covering one synchronous and one asynchronous handler. -/
theorem dispatch_exception_to_failure_witness :
    execute [("c", exnHandlerSync)] "c" [] = AdapterResult.fail (JValue.str "boom") ∧
    execute [("c", exnHandlerAsync)] "c" [] = AdapterResult.fail (JValue.str "boom") :=
  ⟨dispatch_exception_to_failure [("c", exnHandlerSync)] "c" [] exnHandlerSync "boom" rfl rfl,
   dispatch_exception_to_failure [("c", exnHandlerAsync)] "c" [] exnHandlerAsync "boom" rfl rfl⟩

/-- Claim C8: for every command type with no registered handler, execute
returns a failure result whose error text is exactly the string
Unknown command: followed by the command type, hence contains the type. -/
theorem dispatch_unknown_command (handlers : HandlerMap) (ct : String) (params : PyDict)
    (hget : alistGet handlers ct = none) :
    execute handlers ct params
      = AdapterResult.fail (JValue.str ("Unknown command: " ++ ct)) := by
  simp [execute, hget]

/-- Witness for C8 on an empty registry and a concrete command type. -/
theorem dispatch_unknown_command_witness :
    execute [] "create_box" []
      = AdapterResult.fail (JValue.str "Unknown command: create_box") :=
  dispatch_unknown_command [] "create_box" [] rfl

/-- Claim C10: a registered handler returning a value that is neither an
AdapterResult nor a dict (a string, a number, a list, None, ...) is treated
like an absent return value: execute yields a success result with empty data
and no error. -/
theorem dispatch_other_return_ok (handlers : HandlerMap) (ct : String) (params : PyDict)
    (h : Handler) (v : JValue)
    (hget : alistGet handlers ct = some h)
    (hret : h.fn params = HandlerOutcome.ret (HandlerReturn.other v)) :
    execute handlers ct params = { success := true, data := [], error := none } := by
  cases hA : h.isAsync <;> simp [execute, hget, hA, hret, AdapterResult.ok]

/-- Witness for C10: a handler returning a bare string and one returning
None both dispatch to the empty success result. -/
theorem dispatch_other_return_ok_witness :
    execute [("c", otherStrHandler)] "c" [] = { success := true, data := [], error := none } ∧
    execute [("c", otherNoneHandler)] "c" [] = { success := true, data := [], error := none } :=
  ⟨dispatch_other_return_ok [("c", otherStrHandler)] "c" [] otherStrHandler
      (JValue.str "hello") rfl rfl,
   dispatch_other_return_ok [("c", otherNoneHandler)] "c" [] otherNoneHandler
      JValue.null rfl rfl⟩

/-- Claim C5 counterexample: a handler returning the legacy dict that has the
status error marker but no error field dispatches to a failure whose error is
the substituted string Unknown error, while the mapping itself has no error
field, so the result error does not equal the mapping error field. -/
theorem dispatch_legacy_error_counterexample :
    (execute [("c", legacyMarkerOnlyHandler)] "c" []).error
        = some (JValue.str "Unknown error") ∧
    alistGet legacyMarkerOnlyDict "error" = none ∧
    (execute [("c", legacyMarkerOnlyHandler)] "c" []).error
        ≠ alistGet legacyMarkerOnlyDict "error" := by
  refine ⟨rfl, rfl, ?_⟩
  intro hcontra
  simp [execute, legacyMarkerOnlyHandler, legacyMarkerOnlyDict, alistGet, isErrorStatus,
    alistGetD, AdapterResult.fail] at hcontra

/-- Claim C5, amended: for every handler returning a mapping with the legacy
failure marker, execute produces a failure result whose error equals the
mapping error field when that field is present, and the string Unknown error
when it is absent. -/
theorem dispatch_legacy_error_dict (handlers : HandlerMap) (ct : String) (params : PyDict)
    (h : Handler) (d : PyDict)
    (hget : alistGet handlers ct = some h)
    (hret : h.fn params = HandlerOutcome.ret (HandlerReturn.dict d))
    (hmark : isErrorStatus d = true) :
    execute handlers ct params
      = AdapterResult.fail (alistGetD d "error" (JValue.str "Unknown error")) := by
  cases hA : h.isAsync <;> simp [execute, hget, hA, hret, hmark]

/-- Witness for the amended C5: a legacy dict with an error field dispatches
to a failure carrying exactly that field. -/
theorem dispatch_legacy_error_dict_witness :
    execute [("c", legacyFullHandler)] "c" []
      = AdapterResult.fail (JValue.str "Operation failed") :=
  dispatch_legacy_error_dict [("c", legacyFullHandler)] "c" [] legacyFullHandler
    legacyFullDict rfl rfl rfl

/-- Claim C6 counterexample: a result whose error is the empty string is
serialized without the error key, because the source guards the key on the
truthiness of the error rather than on it being non-null; re-parsing then
yields a null error, so the triple is not reconstructed and the presence of
the error key does not match the error being non-null. -/
theorem wire_roundtrip_counterexample :
    alistHas emptyErrResult.to_wire "error" = false ∧
    emptyErrResult.error = some (JValue.str "") ∧
    (parseWireResult emptyErrResult.to_wire).error = none := by
  refine ⟨rfl, rfl, rfl⟩

/-- Claim C6, amended: for every result whose error is either null or a
truthy value (in particular any non-empty message), serializing with to_wire
and re-parsing reconstructs the same success, data and error triple, and the
error key is present in the wire form exactly when the error is non-null.
The only change forced by the counterexample is excluding present-but-falsy
errors such as the empty string, which to_wire drops. -/
theorem wire_roundtrip (r : AdapterResult)
    (h : r.error = none ∨ optTruthy r.error = true) :
    parseWireResult r.to_wire = r ∧
    (alistHas r.to_wire "error" = true ↔ r.error ≠ none) := by
  obtain ⟨success, data, error⟩ := r
  cases herr : error with
  | none =>
      subst herr
      constructor
      · rfl
      · simp [AdapterResult.to_wire, alistHas, alistGet]
  | some v =>
      subst herr
      rcases h with h | h
      · exact absurd h (by simp)
      · simp [optTruthy] at h
        constructor
        · simp [AdapterResult.to_wire, h, parseWireResult, alistGet]
        · simp [AdapterResult.to_wire, h, alistHas, alistGet]

/-- Witness for the amended C6 at a success result with data and at a failed
result with a non-empty error message. -/
theorem wire_roundtrip_witness :
    parseWireResult (AdapterResult.mk true [("value", JValue.int 42)] none).to_wire
      = AdapterResult.mk true [("value", JValue.int 42)] none ∧
    parseWireResult (AdapterResult.fail (JValue.str "Object not found")).to_wire
      = AdapterResult.fail (JValue.str "Object not found") :=
  ⟨(wire_roundtrip (AdapterResult.mk true [("value", JValue.int 42)] none)
      (Or.inl rfl)).1,
   (wire_roundtrip (AdapterResult.fail (JValue.str "Object not found"))
      (Or.inr rfl)).1⟩

/-- Claim C9 counterexample: the synthetic command_result sent when no
adapter is attached carries success false and the no-adapter error but has no
data field at all, so not every outbound command_result contains a data dict. -/
theorem command_result_data_counterexample :
    alistGet (handle_execute_command none [("request_id", JValue.str "req-456")]) "data"
        = none ∧
    alistGet (handle_execute_command none [("request_id", JValue.str "req-456")]) "error"
        = some (JValue.str "No adapter configured") := by
  exact ⟨rfl, rfl⟩

/-- Claim C9, amended: every command_result produced in response to an
execute_command message when an adapter is attached contains a data field
holding a possibly empty dict, because the wire form of the dispatched result
always carries data; the synthetic failure sent when no adapter is attached
is the one exception and omits the data field. -/
theorem command_result_data_with_adapter (handlers : HandlerMap) (message : PyDict) :
    alistGet (handle_execute_command (some handlers) message) "data"
      = some (JValue.obj (execute handlers (msgCommandType message) (msgParams message)).data) := by
  show alistGet
      ([("type", JValue.str "command_result"),
        ("request_id", alistGetD message "request_id" JValue.null)]
        ++ (execute handlers (msgCommandType message) (msgParams message)).to_wire) "data"
      = _
  rw [alistGet_append_of_notHas _ _ _ (by rfl), alistGet_to_wire_data]

/-- Claim C7: connect is a no-op returning success when the client is already
connected; otherwise any failure inside the connect-and-register try block
(the websocket open raising, or the registration send raising) leaves the
state DISCONNECTED and returns failure to the caller; connect being a total
Lean function returning a flag models that the failure is returned rather
than raised. -/
theorem connect_noop_or_revert (s : ClientState) (out : ConnectOutcome) :
    (isConnected s = true → connect s out = (s, true)) ∧
    (isConnected s = false →
      (out = ConnectOutcome.connectFail ∨ ∃ h, out = ConnectOutcome.registerFail h) →
      (connect s out).1.state = ConnState.disconnected ∧ (connect s out).2 = false) := by
  constructor
  · intro hconn
    simp [connect, hconn]
  · intro hconn hfail
    rcases hfail with hfail | ⟨h, hfail⟩ <;> subst hfail <;> simp [connect, hconn]

/-- Witness for C7: a connected client ignores the attempt and reports
success, while a fresh client whose open call fails ends DISCONNECTED with a
failure flag. -/
theorem connect_noop_or_revert_witness :
    connect connectedClient ConnectOutcome.connectFail = (connectedClient, true) ∧
    (connect startState ConnectOutcome.connectFail).1.state = ConnState.disconnected ∧
    (connect startState ConnectOutcome.connectFail).2 = false :=
  ⟨(connect_noop_or_revert connectedClient ConnectOutcome.connectFail).1 rfl,
   (connect_noop_or_revert startState ConnectOutcome.connectFail).2 rfl (Or.inl rfl)⟩

/-- Claim C2 counterexample: in the run loop, a generic exception in the
message iteration moves the state to RECONNECTING but leaves the websocket
handle in place (only the ConnectionClosed branch clears it), so the claim
that the connection handle is discarded whenever the connection closes or
errors is false on the error branch. -/
theorem run_error_keeps_handle :
    (runStep 10 connectedClient LoopEvent.msgError).1.state = ConnState.reconnecting ∧
    (runStep 10 connectedClient LoopEvent.msgError).1.ws = some 7 := by
  exact ⟨rfl, rfl⟩

/-- Claim C2, amended: in the run loop, when the connection closes the state
moves to RECONNECTING and the handle is discarded, and when the iteration
fails with any other error the state moves to RECONNECTING with the handle
left in place; in both cases the reconnect-attempt counter is untouched, and
across every possible step of the loop the counter only ever becomes zero
through a connect attempt that succeeds. -/
theorem run_reconnect_semantics (maxAttempts : Nat) (s : ClientState)
    (hconn : isConnected s = true) (hrun : s.running = true) :
    runStep maxAttempts s LoopEvent.msgClosed
        = ({ s with state := ConnState.reconnecting, ws := none }, true) ∧
    runStep maxAttempts s LoopEvent.msgError
        = ({ s with state := ConnState.reconnecting }, true) ∧
    (∀ (t : ClientState) (ev : LoopEvent),
      (runStep maxAttempts t ev).1.reconnectAttempts = 0 →
      t.reconnectAttempts = 0 ∨ ∃ h, ev = LoopEvent.connAttempt (ConnectOutcome.ok h)) := by
  refine ⟨by simp [runStep, hconn, hrun], by simp [runStep, hconn, hrun], ?_⟩
  intro t ev hzero
  by_cases hr : t.running
  · by_cases hc : isConnected t
    · cases ev <;> simp [runStep, hr, hc] at hzero <;> exact Or.inl hzero
    · cases ev with
      | connAttempt out =>
          cases out with
          | connectFail =>
              exfalso
              by_cases hd : maxAttempts < t.reconnectAttempts + 1 <;>
                simp [runStep, hr, hc, connect, hd] at hzero
          | registerFail h =>
              exfalso
              by_cases hd : maxAttempts < t.reconnectAttempts + 1 <;>
                simp [runStep, hr, hc, connect, hd] at hzero
          | ok h => exact Or.inr ⟨h, rfl⟩
      | msgClosed => simp [runStep, hr, hc] at hzero; exact Or.inl hzero
      | msgError => simp [runStep, hr, hc] at hzero; exact Or.inl hzero
      | msgBatchDone => simp [runStep, hr, hc] at hzero; exact Or.inl hzero
  · simp [runStep, hr] at hzero
    exact Or.inl hzero

/-- Witness for the amended C2 at a concrete connected client. -/
theorem run_reconnect_semantics_witness :
    runStep 10 connectedClient LoopEvent.msgClosed
      = ({ ws := none, state := ConnState.reconnecting, reconnectAttempts := 3,
           running := true }, true) :=
  (run_reconnect_semantics 10 connectedClient rfl rfl).1

/-- After j failed attempts, a further run of exactly enough failing connect
attempts drives the counter past the maximum and exits the loop with state
DISCONNECTED, regardless of any events that would have followed. -/
theorem runTrace_allFail_aux (maxAttempts : Nat) :
    ∀ (n j : Nat), j + n = maxAttempts + 1 → j ≤ maxAttempts →
    ∀ (rest : List LoopEvent),
    runTrace maxAttempts
        { ws := none, state := ConnState.disconnected, reconnectAttempts := j, running := true }
        (List.replicate n (LoopEvent.connAttempt ConnectOutcome.connectFail) ++ rest)
      = ({ ws := none, state := ConnState.disconnected,
           reconnectAttempts := maxAttempts + 1, running := true }, false) := by
  intro n
  induction n with
  | zero => intro j hj hle rest; omega
  | succ n ih =>
      intro j hj hle rest
      by_cases hcase : maxAttempts < j + 1
      · have hj2 : j = maxAttempts := by omega
        have hn : n = 0 := by omega
        subst hj2
        subst hn
        simp [runTrace, runStep, isConnected, connect, hcase]
      · have hstep : runTrace maxAttempts
            { ws := none, state := ConnState.disconnected, reconnectAttempts := j,
              running := true }
            (List.replicate (n + 1) (LoopEvent.connAttempt ConnectOutcome.connectFail) ++ rest)
            = runTrace maxAttempts
                { ws := none, state := ConnState.disconnected, reconnectAttempts := j + 1,
                  running := true }
                (List.replicate n (LoopEvent.connAttempt ConnectOutcome.connectFail) ++ rest) := by
          simp [runTrace, runStep, isConnected, connect, hcase]
        rw [hstep]
        exact ih (j + 1) (by omega) (by omega) rest

/-- Claim C3: when connect fails on every attempt, as soon as the number of
consecutive failures exceeds the configured maximum the run loop terminates
(the continue flag is false, and any further events are never consumed), and
the state afterwards is DISCONNECTED, in particular not CONNECTED; the step
function being total models that the loop exits without raising. -/
theorem run_terminates_after_max_failures (maxAttempts : Nat) (rest : List LoopEvent) :
    runTrace maxAttempts startState
        (List.replicate (maxAttempts + 1) (LoopEvent.connAttempt ConnectOutcome.connectFail)
          ++ rest)
      = ({ ws := none, state := ConnState.disconnected,
           reconnectAttempts := maxAttempts + 1, running := true }, false) ∧
    (runTrace maxAttempts startState
        (List.replicate (maxAttempts + 1) (LoopEvent.connAttempt ConnectOutcome.connectFail)
          ++ rest)).1.state ≠ ConnState.connected := by
  have h := runTrace_allFail_aux maxAttempts (maxAttempts + 1) 0 (by omega) (by omega) rest
  constructor
  · exact h
  · unfold startState
    rw [h]
    simp

/-- Claim C4 counterexample: after a queued operation times out and its
waiter has cleaned up, a late completion by the process-queue path still
stores the result into the result map, where the entry for the abandoned
operation remains with no one left to pop it; so the path does leak an entry
in the result map. -/
theorem timeout_leaked_result_counterexample :
    alistGet (server_process_queue execDone 10
        (queueAndWaitTimeout
          (queueAndWaitEnqueue initServer "create_box" [] "r1") "r1").1).1.resultMap "r1"
      = some [("done", JValue.bool true)] := by
  rfl

/-- Claim C4, amended: a queued operation not processed within its timeout
window makes the waiting connection thread remove its own event registration
and return the timeout-error result, and a later completion of that same
operation by the process-queue path neither raises on the execution thread
(the function is total and guards the signal with a membership test) nor
double-signals, and leaves no entry in the event map; however the late
completion does store the stale result into the result map, where the entry
for the abandoned operation remains. -/
theorem timeout_then_late_completion (s : ServerState) (c : String) (p : PyDict)
    (rid : String) (exec : Executor) (m : Nat)
    (hrun : s.running = true) (hq : s.opQueue = [])
    (hev : alistHas s.resultEvents rid = false) :
    (queueAndWaitTimeout (queueAndWaitEnqueue s c p rid) rid).2
        = [("status", JValue.str "error"), ("error", JValue.str "Operation timed out")] ∧
    (server_process_queue exec (m + 1)
        (queueAndWaitTimeout (queueAndWaitEnqueue s c p rid) rid).1).2 = true ∧
    alistHas (server_process_queue exec (m + 1)
        (queueAndWaitTimeout (queueAndWaitEnqueue s c p rid) rid).1).1.resultEvents rid
      = false ∧
    alistGet (server_process_queue exec (m + 1)
        (queueAndWaitTimeout (queueAndWaitEnqueue s c p rid) rid).1).1.resultMap rid
      = some (match exec c p with
          | ExecOutcome.ret d => d
          | ExecOutcome.exn msg =>
              [("status", JValue.str "error"), ("error", JValue.str msg)]) := by
  obtain ⟨running, opQueue, resultMap, resultEvents⟩ := s
  dsimp only at hrun hq hev
  subst hrun
  subst hq
  have hev2 : alistRemove resultEvents rid = resultEvents :=
    alistRemove_of_notHas _ _ hev
  refine ⟨rfl, ?_, ?_, ?_⟩ <;>
    cases hex : exec c p <;>
      simp [server_process_queue, queueAndWaitTimeout, queueAndWaitEnqueue, processOps,
        alistRemove_insert, hev2, hev, hex, processOps_of_empty, alistGet_insert_self]

/-- Witness for the amended C4: a concrete timed-out operation returns the
timeout error and a late completion leaves the event map without an entry. -/
theorem timeout_then_late_completion_witness :
    (queueAndWaitTimeout (queueAndWaitEnqueue initServer "create_box" [] "r1") "r1").2
        = [("status", JValue.str "error"), ("error", JValue.str "Operation timed out")] ∧
    alistHas (server_process_queue execDone 10
        (queueAndWaitTimeout
          (queueAndWaitEnqueue initServer "create_box" [] "r1") "r1").1).1.resultEvents "r1"
      = false := by
  have h := timeout_then_late_completion initServer "create_box" [] "r1" execDone 9 rfl rfl rfl
  exact ⟨h.1, h.2.2.1⟩

end Conjure
